import Mathlib

/-!
Verification of the BiskutRayaClassification web application (src/main.py).

The development shallowly embeds the Python source: JSON-like values become
the inductive `JVal`; Python exception flow becomes explicit `Except`
results (the surrounding `try`/`except` in `run_roboflow_workflow` then
collapses exceptions to `none`); the Flask router `upload_file` becomes a
pure function over an explicit store, parameterized by its external
dependencies (filename sanitizer, remote classifier, template renderer).
-/

set_option autoImplicit false

namespace Biskut

/-- A Python/JSON value, as produced by `json`-style decoding of the remote
inference response.  Object keys are strings, as in JSON. -/
inductive JVal where
  | null
  | bool (b : Bool)
  | num (n : Int)
  | str (s : String)
  | arr (items : List JVal)
  | obj (fields : List (String × JVal))

/-- Python truthiness (`if x:`) restricted to `JVal` shapes. -/
def JVal.truthy : JVal → Bool
  | .null => false
  | .bool b => b
  | .num n => n != 0
  | .str s => !(s == "")
  | .arr xs => !xs.isEmpty
  | .obj kvs => !kvs.isEmpty

/-- Python `x == k` for a string literal `k`: true only for the equal string. -/
def JVal.isStrEq : JVal → String → Bool
  | .str s, k => s == k
  | _, _ => false

/-- First-match association lookup, i.e. Python dict access on our
string-keyed object representation. -/
def jlookup (kvs : List (String × JVal)) (k : String) : Option JVal :=
  match kvs.find? (fun p => p.1 == k) with
  | some p => some p.2
  | none => none

/-- Python `v.get(k, d)`: defaulting lookup on a dict; on any non-dict value
the attribute access raises (`AttributeError`), modelled as `.error`. -/
def dictGet (v : JVal) (k : String) (d : JVal) : Except Unit JVal :=
  match v with
  | .obj kvs => .ok ((jlookup kvs k).getD d)
  | _ => .error ()

/-- Python `v[0]`: head of a list; first character of a string (as a 1-char
string); raises on an empty sequence, on a string-keyed dict (`KeyError`
for key `0`) and on non-subscriptable values (`TypeError`). -/
def pyIndex0 : JVal → Except Unit JVal
  | .arr (x :: _) => .ok x
  | .arr [] => .error ()
  | .str s =>
      match s.data with
      | c :: _ => .ok (.str (String.mk [c]))
      | [] => .error ()
  | _ => .error ()

/-- Boolean prefix test on character lists (`chStartsWith needle hay`). -/
def chStartsWith : List Char → List Char → Bool
  | [], _ => true
  | _ :: _, [] => false
  | a :: as, b :: bs => a == b && chStartsWith as bs

/-- Boolean substring test on character lists (Python `needle in hay`
for strings). -/
def chContainsSub (needle : List Char) : List Char → Bool
  | [] => chStartsWith needle []
  | c :: rest => chStartsWith needle (c :: rest) || chContainsSub needle rest

/-- Python `k in v` for a string literal `k`: key membership on a dict,
element membership on a list, substring test on a string; raises
(`TypeError`) on other values. -/
def pyInStr (k : String) : JVal → Except Unit Bool
  | .obj kvs => .ok (kvs.any (fun p => p.1 == k))
  | .arr xs => .ok (xs.any (fun x => x.isStrEq k))
  | .str s => .ok (chContainsSub k.data s.data)
  | _ => .error ()

/-- Python `v[k]` for a string literal `k`: dict lookup raising `KeyError`
when the key is absent; raises `TypeError` on non-dict values. -/
def pyGetItemStr (v : JVal) (k : String) : Except Unit JVal :=
  match v with
  | .obj kvs =>
      match jlookup kvs k with
      | some x => .ok x
      | none => .error ()
  | _ => .error ()

/-- The short-circuit condition `predictions and "class" in predictions[0]`
from `run_roboflow_workflow` (src/main.py line 73). -/
def condClass (predictions : JVal) : Except Unit Bool :=
  if predictions.truthy then
    match pyIndex0 predictions with
    | .error e => .error e
    | .ok p0 => pyInStr "class" p0
  else
    .ok false

/-- The response-parsing block of `run_roboflow_workflow`
(src/main.py lines 69-80), with Python exceptions explicit: any raised
exception surfaces as `.error` (and is caught by the surrounding `try`). -/
def interpretCore (result : JVal) : Except Unit (Option JVal) :=
  match result with
  | .arr (first :: _) =>
      match dictGet first "$steps.model.predictions" (.obj []) with
      | .error e => .error e
      | .ok p1 =>
          match dictGet p1 "predictions" (.arr []) with
          | .error e => .error e
          | .ok predictions =>
              match condClass predictions with
              | .error e => .error e
              | .ok true =>
                  match pyIndex0 predictions with
                  | .error e => .error e
                  | .ok p0 =>
                      match pyGetItemStr p0 "class" with
                      | .error e => .error e
                      | .ok c => .ok (some c)
              | .ok false =>
                  match pyInStr "top_class" first with
                  | .error e => .error e
                  | .ok true =>
                      match pyGetItemStr first "top_class" with
                      | .error e => .error e
                      | .ok t => .ok (some t)
                  | .ok false => .ok none
  | _ => .ok none

/-- The result interpreter as seen by the caller of
`run_roboflow_workflow`: a raised exception is caught by the enclosing
`try`/`except`, which returns `None`. -/
def interpretResult (result : JVal) : Option JVal :=
  match interpretCore result with
  | .ok r => r
  | .error _ => none

/-- `run_roboflow_workflow` (src/main.py lines 48-84).  External effects are
passed in: `clientInit` is whether the module-level Roboflow client handle
was initialized, `readImage` is the outcome of reading the image file,
`callAPI` is the outcome of the remote workflow call on the image bytes. -/
def run_roboflow_workflow {E1 E2 : Type} (clientInit : Bool)
    (readImage : Except E1 (List Nat)) (callAPI : List Nat → Except E2 JVal) :
    Option JVal :=
  if clientInit then
    match readImage with
    | .error _ => none
    | .ok bytes =>
        match callAPI bytes with
        | .error _ => none
        | .ok result => interpretResult result
  else
    none

/-- `ALLOWED_EXTENSIONS` (src/main.py line 18). -/
def ALLOWED_EXTENSIONS : List String := ["png", "jpg", "jpeg", "gif"]

/-- Characters strictly after the last occurrence of `c`, i.e. Python
`s.rsplit(c, 1)[1]` when `c` occurs in `s`. -/
def afterLast (c : Char) (l : List Char) : List Char :=
  (l.reverse.takeWhile (fun x => x != c)).reverse

/-- `allowed_file` (src/main.py lines 44-45):
`'.' in filename and filename.rsplit('.', 1)[1].lower() in ALLOWED_EXTENSIONS`. -/
def allowed_file (filename : String) : Bool :=
  filename.data.contains '.' &&
    ALLOWED_EXTENSIONS.contains
      (String.mk ((afterLast '.' filename.data).map Char.toLower))

/-- The upload directory contents: filename to stored bytes. -/
structure Store where
  files : List (String × List Nat)

/-- `file.save(filepath)`: (over)write the named file in the upload folder. -/
def storeBytes (st : Store) (name : String) (content : List Nat) : Store :=
  ⟨(name, content) :: st.files.filter (fun p => p.1 != name)⟩

/-- `send_from_directory` lookup: the stored bytes, or `none` for the
framework's not-found response. -/
def retrieveBytes (st : Store) (name : String) : Option (List Nat) :=
  match st.files.find? (fun p => p.1 == name) with
  | some p => some p.2
  | none => none

/-- A submitted multipart file: original filename and content bytes. -/
structure UpFile where
  filename : String
  content : List Nat

/-- The HTTP response produced by the upload route. -/
inductive Response where
  | redirectSelf
  | redirectRecipe (label : JVal)
  | renderIndex

/-- Observable outcome of one `upload_file` request: the response, the
flash messages, the files written during the request, the inference calls
made (by image path), and the resulting upload-directory state. -/
structure RouterOutcome where
  response : Response
  flashes : List (String × String)
  writes : List (String × List Nat)
  inferenceCalls : List String
  store : Store

/-- Python truthiness of `predicted_class` at src/main.py line 102:
`None` is falsy, otherwise the value's own truthiness decides. -/
def optTruthy : Option JVal → Bool
  | none => false
  | some v => v.truthy

/-- `UPLOAD_FOLDER` (src/main.py line 17). -/
def UPLOAD_FOLDER : String := "uploads"

/-- `os.path.join` for the sanitized-relative-filename case used here. -/
def os_path_join (a b : String) : String := a ++ "/" ++ b

/-- `upload_file` (src/main.py lines 87-110).  `sanitize` stands for
werkzeug `secure_filename` and `classify` for `run_roboflow_workflow`
applied to the saved path; both are external to this route's logic. -/
def upload_file (sanitize : String → String) (classify : String → Option JVal)
    (isPost : Bool) (file : Option UpFile) (st : Store) : RouterOutcome :=
  if isPost then
    match file with
    | none =>
        { response := .redirectSelf
          flashes := [("No image file selected.", "error")]
          writes := [], inferenceCalls := [], store := st }
    | some f =>
        if f.filename = "" then
          { response := .redirectSelf
            flashes := [("No image file selected.", "error")]
            writes := [], inferenceCalls := [], store := st }
        else if allowed_file f.filename then
          let filename := sanitize f.filename
          let filepath := os_path_join UPLOAD_FOLDER filename
          let st2 := storeBytes st filename f.content
          let predicted := classify filepath
          if optTruthy predicted then
            { response := .redirectRecipe (predicted.getD .null)
              flashes := []
              writes := [(filename, f.content)]
              inferenceCalls := [filepath], store := st2 }
          else
            { response := .renderIndex
              flashes := [("Prediction failed or returned no result.", "error")]
              writes := [(filename, f.content)]
              inferenceCalls := [filepath], store := st2 }
        else
          { response := .renderIndex
            flashes := [("Invalid file type.", "error")]
            writes := [], inferenceCalls := [], store := st }
  else
    { response := .renderIndex, flashes := [], writes := []
      inferenceCalls := [], store := st }

/-- `uploaded_file` (src/main.py lines 113-115): serve a stored file. -/
def uploaded_file (st : Store) (filename : String) : Option (List Nat) :=
  retrieveBytes st filename

/-- `show_recipe` (src/main.py lines 118-123): render the template named
after the label; the bare `except:` turns any rendering error, of any
kind `E`, into the generic inline 404 message. -/
def show_recipe {E : Type} (render : String → Except E String)
    (biscuit : String) : String × Nat :=
  match render ("biscuits/" ++ biscuit ++ ".html") with
  | .ok page => (page, 200)
  | .error _ =>
      ("<h1>No recipe page found for \x27" ++ biscuit ++ "\x27</h1>", 404)

/-- No class label is extractable from a first element `obj kvs` through the
nested-predictions path: the field is absent, or its `predictions` list is
absent or empty, or the first prediction entry is an object without a
`class` key. -/
def noNestedClass (kvs : List (String × JVal)) : Prop :=
  jlookup kvs "$steps.model.predictions" = none
  ∨ (∃ m, jlookup kvs "$steps.model.predictions" = some (.obj m)
      ∧ (jlookup m "predictions" = none
         ∨ jlookup m "predictions" = some (.arr [])
         ∨ ∃ pkvs rest, jlookup m "predictions" = some (.arr (.obj pkvs :: rest))
             ∧ jlookup pkvs "class" = none))

/-- The first element of the response yields a class through the nested
`$steps.model.predictions` path: it is an object whose field holds an
object whose `predictions` list starts with an object having a `class`
key.  (These are exactly the shapes on which src/main.py line 74 returns;
every other shape either fails the line-73 condition or raises.) -/
def extractsNestedClass (first : JVal) : Prop :=
  ∃ kvs m pkvs preds v, first = .obj kvs
    ∧ jlookup kvs "$steps.model.predictions" = some (.obj m)
    ∧ jlookup m "predictions" = some (.arr (.obj pkvs :: preds))
    ∧ jlookup pkvs "class" = some v

/-- The first element of the response has a top-level `top_class` field:
it is an object carrying that key (a non-object has no fields). -/
def hasTopClassField (first : JVal) : Prop :=
  ∃ kvs t, first = .obj kvs ∧ jlookup kvs "top_class" = some t

/-! ## Helper lemmas -/

theorem jlookup_nil (k : String) : jlookup [] k = none := rfl

theorem jlookup_any (kvs : List (String × JVal)) (k : String) :
    (kvs.any fun p => p.1 == k) = (jlookup kvs k).isSome := by
  induction kvs with
  | nil => simp [jlookup]
  | cons p rest ih =>
      cases h : (p.1 == k) with
      | true => simp [jlookup, List.find?, h]
      | false => simpa [jlookup, List.find?, h] using ih

theorem store_retrieve (st : Store) (name : String) (content : List Nat) :
    retrieveBytes (storeBytes st name content) name = some content := by
  simp [retrieveBytes, storeBytes, List.find?]

theorem retrieve_not_stored (st : Store) (name : String)
    (h : ∀ c, (name, c) ∉ st.files) : retrieveBytes st name = none := by
  have hfind : st.files.find? (fun p => p.1 == name) = none := by
    rw [List.find?_eq_none]
    intro x hx hbeq
    have hx1 : x.1 = name := by simpa using hbeq
    exact h x.2 (by simpa [← hx1] using hx)
  simp [retrieveBytes, hfind]

theorem takeWhile_ne_append (c : Char) (xs ys : List Char) (h : c ∉ xs) :
    (xs ++ c :: ys).takeWhile (fun x => x != c) = xs := by
  induction xs with
  | nil => simp [List.takeWhile_cons]
  | cons x xs ih =>
      have hx : x ≠ c := fun e => h (e ▸ List.mem_cons_self x xs)
      have hxs : c ∉ xs := fun m => h (List.mem_cons_of_mem x m)
      simp [List.takeWhile_cons, bne_iff_ne, hx, ih hxs]

theorem takeWhile_mem_split (c : Char) (r : List Char) (h : c ∈ r) :
    r = r.takeWhile (fun x => x != c) ++ c :: (r.dropWhile (fun x => x != c)).tail
    ∧ c ∉ r.takeWhile (fun x => x != c) := by
  induction r with
  | nil => cases h
  | cons x xs ih =>
      by_cases hx : x = c
      · subst hx
        constructor
        · simp [List.takeWhile_cons, List.dropWhile_cons]
        · simp [List.takeWhile_cons]
      · have hmem : c ∈ xs := by
          rcases List.mem_cons.mp h with h' | h'
          · exact absurd h'.symm hx
          · exact h'
        obtain ⟨ih1, ih2⟩ := ih hmem
        have hb : (x != c) = true := by simpa [bne_iff_ne] using hx
        constructor
        · simp only [List.takeWhile_cons, List.dropWhile_cons, hb, if_true,
            List.cons_append]
          exact congrArg (x :: ·) ih1
        · simp only [List.takeWhile_cons, hb, if_true]
          intro hm
          rcases List.mem_cons.mp hm with h' | h'
          · exact hx h'.symm
          · exact ih2 h'

theorem afterLast_split (l : List Char) (h : '.' ∈ l) :
    ∃ a, l = a ++ '.' :: afterLast '.' l ∧ '.' ∉ afterLast '.' l := by
  have hr : '.' ∈ l.reverse := List.mem_reverse.mpr h
  obtain ⟨h1, h2⟩ := takeWhile_mem_split '.' l.reverse hr
  refine ⟨((l.reverse.dropWhile (fun x => x != '.')).tail).reverse, ?_, ?_⟩
  · conv_lhs => rw [← l.reverse_reverse, h1]
    simp [afterLast, List.reverse_append, List.append_assoc]
  · simpa [afterLast, List.mem_reverse] using h2

theorem afterLast_of_split (a b : List Char) (hb : '.' ∉ b) :
    afterLast '.' (a ++ '.' :: b) = b := by
  unfold afterLast
  rw [List.reverse_append, List.reverse_cons, List.append_assoc,
    List.singleton_append,
    takeWhile_ne_append '.' b.reverse a.reverse (by simpa using hb)]
  exact b.reverse_reverse

theorem interpret_top (kvs : List (String × JVal)) (rest : List JVal)
    (h : noNestedClass kvs) :
    interpretResult (.arr (.obj kvs :: rest)) = jlookup kvs "top_class" := by
  rcases h with h1 | ⟨m, h1, h2⟩
  · cases htc : jlookup kvs "top_class" with
    | none => simp [interpretResult, interpretCore, dictGet, condClass,
        pyInStr, pyGetItemStr, jlookup_any, jlookup_nil, h1, htc, JVal.truthy]
    | some t => simp [interpretResult, interpretCore, dictGet, condClass,
        pyInStr, pyGetItemStr, jlookup_any, jlookup_nil, h1, htc, JVal.truthy]
  · rcases h2 with h2 | h2 | ⟨pkvs, prest, h2, h3⟩
    · cases htc : jlookup kvs "top_class" with
      | none => simp [interpretResult, interpretCore, dictGet, condClass,
          pyInStr, pyGetItemStr, jlookup_any, h1, h2, htc, JVal.truthy]
      | some t => simp [interpretResult, interpretCore, dictGet, condClass,
          pyInStr, pyGetItemStr, jlookup_any, h1, h2, htc, JVal.truthy]
    · cases htc : jlookup kvs "top_class" with
      | none => simp [interpretResult, interpretCore, dictGet, condClass,
          pyInStr, pyGetItemStr, jlookup_any, h1, h2, htc, JVal.truthy]
      | some t => simp [interpretResult, interpretCore, dictGet, condClass,
          pyInStr, pyGetItemStr, jlookup_any, h1, h2, htc, JVal.truthy]
    · cases htc : jlookup kvs "top_class" with
      | none => simp [interpretResult, interpretCore, dictGet, condClass,
          pyIndex0, pyInStr, pyGetItemStr, jlookup_any, h1, h2, h3, htc,
          JVal.truthy]
      | some t => simp [interpretResult, interpretCore, dictGet, condClass,
          pyIndex0, pyInStr, pyGetItemStr, jlookup_any, h1, h2, h3, htc,
          JVal.truthy]

theorem interpret_none (first : JVal) (rest : List JVal)
    (hA : ¬ extractsNestedClass first) (hB : ¬ hasTopClassField first) :
    interpretResult (.arr (first :: rest)) = none := by
  cases first with
  | null => simp [interpretResult, interpretCore, dictGet]
  | bool b => simp [interpretResult, interpretCore, dictGet]
  | num n => simp [interpretResult, interpretCore, dictGet]
  | str s => simp [interpretResult, interpretCore, dictGet]
  | arr xs => simp [interpretResult, interpretCore, dictGet]
  | obj kvs =>
      have htc : jlookup kvs "top_class" = none := by
        cases h : jlookup kvs "top_class" with
        | none => rfl
        | some t => exact absurd ⟨kvs, t, rfl, h⟩ hB
      cases hs : jlookup kvs "$steps.model.predictions" with
      | none => rw [interpret_top kvs rest (Or.inl hs), htc]
      | some y =>
          cases y with
          | null => simp [interpretResult, interpretCore, dictGet, hs]
          | bool b => simp [interpretResult, interpretCore, dictGet, hs]
          | num n => simp [interpretResult, interpretCore, dictGet, hs]
          | str s => simp [interpretResult, interpretCore, dictGet, hs]
          | arr ys => simp [interpretResult, interpretCore, dictGet, hs]
          | obj m =>
              cases hp : jlookup m "predictions" with
              | none =>
                  rw [interpret_top kvs rest (Or.inr ⟨m, hs, Or.inl hp⟩), htc]
              | some z =>
                  cases z with
                  | null => simp [interpretResult, interpretCore, dictGet,
                      condClass, pyInStr, jlookup_any, JVal.truthy,
                      hs, hp, htc]
                  | bool b =>
                      cases b with
                      | false => simp [interpretResult, interpretCore,
                          dictGet, condClass, pyInStr, jlookup_any,
                          JVal.truthy, hs, hp, htc]
                      | true => simp [interpretResult, interpretCore,
                          dictGet, condClass, pyIndex0, JVal.truthy, hs, hp]
                  | num n =>
                      by_cases hn : n = 0
                      · simp [interpretResult, interpretCore,
                          dictGet, condClass, pyInStr, jlookup_any,
                          JVal.truthy, hs, hp, htc, hn]
                      · simp [interpretResult, interpretCore,
                          dictGet, condClass, pyIndex0, JVal.truthy,
                          hs, hp, hn]
                  | str s =>
                      by_cases hse : s = ""
                      · simp [interpretResult, interpretCore,
                          dictGet, condClass, pyInStr, jlookup_any,
                          JVal.truthy, hs, hp, htc, hse]
                      · cases hd : s.data with
                        | nil => simp [interpretResult, interpretCore,
                            dictGet, condClass, pyIndex0, JVal.truthy,
                            hs, hp, hse, hd]
                        | cons c cs => simp [interpretResult,
                            interpretCore, dictGet, condClass, pyIndex0,
                            pyInStr, chContainsSub, chStartsWith,
                            jlookup_any, JVal.truthy, hs, hp, htc, hse, hd]
                  | obj okvs =>
                      cases okvs with
                      | nil => simp [interpretResult, interpretCore,
                          dictGet, condClass, pyInStr, jlookup_any,
                          JVal.truthy, hs, hp, htc]
                      | cons q qs => simp [interpretResult, interpretCore,
                          dictGet, condClass, pyIndex0, JVal.truthy, hs, hp]
                  | arr xs =>
                      cases xs with
                      | nil =>
                          rw [interpret_top kvs rest
                            (Or.inr ⟨m, hs, Or.inr (Or.inl hp)⟩), htc]
                      | cons x preds =>
                          cases x with
                          | obj pkvs =>
                              cases hc : jlookup pkvs "class" with
                              | none =>
                                  rw [interpret_top kvs rest (Or.inr ⟨m, hs,
                                    Or.inr (Or.inr ⟨pkvs, preds, hp, hc⟩)⟩),
                                    htc]
                              | some v =>
                                  exact absurd
                                    ⟨kvs, m, pkvs, preds, v, rfl, hs, hp, hc⟩
                                    hA
                          | null => simp [interpretResult, interpretCore,
                              dictGet, condClass, pyIndex0, pyInStr,
                              JVal.truthy, hs, hp]
                          | bool b => simp [interpretResult, interpretCore,
                              dictGet, condClass, pyIndex0, pyInStr,
                              JVal.truthy, hs, hp]
                          | num n => simp [interpretResult, interpretCore,
                              dictGet, condClass, pyIndex0, pyInStr,
                              JVal.truthy, hs, hp]
                          | str s =>
                              cases hcc : chContainsSub "class".data s.data
                                  with
                              | true => simp [interpretResult,
                                  interpretCore, dictGet, condClass,
                                  pyIndex0, pyInStr, pyGetItemStr,
                                  JVal.truthy, hs, hp, hcc]
                              | false => simp [interpretResult,
                                  interpretCore, dictGet, condClass,
                                  pyIndex0, pyInStr, jlookup_any,
                                  JVal.truthy, hs, hp, hcc, htc]
                          | arr ys =>
                              cases hcc : ys.any
                                  (fun w => w.isStrEq "class") with
                              | true => simp [interpretResult,
                                  interpretCore, dictGet, condClass,
                                  pyIndex0, pyInStr, pyGetItemStr,
                                  JVal.truthy, hs, hp, hcc]
                              | false => simp [interpretResult,
                                  interpretCore, dictGet, condClass,
                                  pyIndex0, pyInStr, jlookup_any,
                                  JVal.truthy, hs, hp, hcc, htc]

/-! ## Claim theorems -/

/-- Claim C1: the fallback chain short-circuits.  Whenever the first element
of the response carries a nested `$steps.model.predictions` object whose
`predictions` list is non-empty and whose first entry has a `class` key,
the interpreter returns that class value; `top_class` is never consulted
(the conclusion holds for every `kvs`, in particular one that also carries
a `top_class` field). -/
theorem spec_C1 (kvs m pkvs : List (String × JVal)) (rest preds : List JVal)
    (v : JVal)
    (h1 : jlookup kvs "$steps.model.predictions" = some (.obj m))
    (h2 : jlookup m "predictions" = some (.arr (.obj pkvs :: preds)))
    (h3 : jlookup pkvs "class" = some v) :
    interpretResult (.arr (.obj kvs :: rest)) = some v := by
  simp [interpretResult, interpretCore, dictGet, condClass, pyIndex0, pyInStr,
    pyGetItemStr, jlookup_any, h1, h2, h3, JVal.truthy]

/-- Witness for C1 at the spec example, with a competing `top_class` also
present: the nested class `"ginger"` wins over `top_class = "oreo"`. -/
theorem spec_C1_witness :
    interpretResult (.arr [.obj [("$steps.model.predictions",
      .obj [("predictions", .arr [.obj [("class", .str "ginger")]])]),
      ("top_class", .str "oreo")]]) = some (.str "ginger") :=
  spec_C1 _ _ _ [] [] _ rfl rfl rfl

/-- Claim C2: when the nested-predictions path yields no class (field
absent, predictions list absent or empty, or first entry without a `class`
key) and the first element has a top-level `top_class` field, the
interpreter returns the `top_class` value. -/
theorem spec_C2 (kvs : List (String × JVal)) (rest : List JVal) (t : JVal)
    (h : noNestedClass kvs) (htc : jlookup kvs "top_class" = some t) :
    interpretResult (.arr (.obj kvs :: rest)) = some t := by
  rw [interpret_top kvs rest h, htc]

/-- Witness for C2 at the spec example `[{"top_class": "oreo"}]`. -/
theorem spec_C2_witness :
    interpretResult (.arr [.obj [("top_class", .str "oreo")]]) =
      some (.str "oreo") :=
  spec_C2 _ [] _ (Or.inl rfl) rfl

/-- Claim C3: the interpreter returns `none` on every empty sequence, on
every response that is not a sequence at all, and on every non-empty
sequence whose first element neither yields a class through the nested
predictions path nor carries a `top_class` field; and when the classifier
yields `none` for an upload the router issues no redirect, flashes the
interpretation-failure notice and redisplays the form. -/
theorem spec_C3 :
    interpretResult (.arr []) = none
    ∧ (∀ r : JVal, (∀ xs, r ≠ .arr xs) → interpretResult r = none)
    ∧ (∀ (first : JVal) (rest : List JVal),
        ¬ extractsNestedClass first → ¬ hasTopClassField first →
        interpretResult (.arr (first :: rest)) = none)
    ∧ (∀ (sanitize : String → String) (classify : String → Option JVal)
        (f : UpFile) (st : Store),
        f.filename ≠ "" → allowed_file f.filename = true →
        classify (os_path_join UPLOAD_FOLDER (sanitize f.filename)) = none →
        upload_file sanitize classify true (some f) st =
          { response := .renderIndex
            flashes := [("Prediction failed or returned no result.", "error")]
            writes := [(sanitize f.filename, f.content)]
            inferenceCalls := [os_path_join UPLOAD_FOLDER (sanitize f.filename)]
            store := storeBytes st (sanitize f.filename) f.content }) := by
  refine ⟨rfl, ?_, ?_, ?_⟩
  · intro r h
    cases r with
    | arr xs => exact absurd rfl (h xs)
    | null => rfl
    | bool b => rfl
    | num n => rfl
    | str s => rfl
    | obj kvs => rfl
  · exact interpret_none
  · intro sanitize classify f st hne hallow hnone
    simp [upload_file, hne, hallow, hnone, optTruthy]

/-- Witness for C3: the universal conjuncts applied at concrete inputs —
the non-sequence `5`, the sequences `[{}]`, `[5]` and
`[{"$steps.model.predictions": 3}]`, and a concrete failed upload. -/
theorem spec_C3_witness :
    interpretResult (.num 5) = none
    ∧ interpretResult (.arr [.obj []]) = none
    ∧ interpretResult (.arr [.num 5]) = none
    ∧ interpretResult (.arr [.obj [("$steps.model.predictions", .num 3)]]) =
        none
    ∧ upload_file id (fun _ => none) true (some ⟨"a.png", [7]⟩) ⟨[]⟩ =
        { response := .renderIndex
          flashes := [("Prediction failed or returned no result.", "error")]
          writes := [("a.png", [7])]
          inferenceCalls := ["uploads/a.png"]
          store := storeBytes ⟨[]⟩ "a.png" [7] } :=
  ⟨spec_C3.2.1 (.num 5) (fun xs h => by cases h),
   spec_C3.2.2.1 (.obj []) []
     (by rintro ⟨kvs, m, pkvs, preds, v, he, h1, -, -⟩
         cases he; simp [jlookup] at h1)
     (by rintro ⟨kvs, t, he, h⟩
         cases he; simp [jlookup] at h),
   spec_C3.2.2.1 (.num 5) []
     (by rintro ⟨kvs, m, pkvs, preds, v, he, -, -, -⟩; cases he)
     (by rintro ⟨kvs, t, he, -⟩; cases he),
   spec_C3.2.2.1 (.obj [("$steps.model.predictions", .num 3)]) []
     (by rintro ⟨kvs, m, pkvs, preds, v, he, h1, -, -⟩
         cases he; simp [jlookup, List.find?] at h1)
     (by rintro ⟨kvs, t, he, h⟩
         cases he; simp [jlookup, List.find?] at h),
   spec_C3.2.2.2 id (fun _ => none) ⟨"a.png", [7]⟩ ⟨[]⟩ (by decide)
     (by decide) rfl⟩

/-- Claim C4: a POST upload with a non-empty filename of a disallowed
extension is rejected with the invalid-file-type notice; nothing is
written, no inference call is made, and the store is unchanged. -/
theorem spec_C4 (sanitize : String → String) (classify : String → Option JVal)
    (f : UpFile) (st : Store) (hne : f.filename ≠ "")
    (hbad : allowed_file f.filename = false) :
    upload_file sanitize classify true (some f) st =
      { response := .renderIndex
        flashes := [("Invalid file type.", "error")]
        writes := [], inferenceCalls := [], store := st } := by
  simp [upload_file, hne, hbad]

/-- Witness for C4 at a `.txt` upload. -/
theorem spec_C4_witness :
    upload_file id (fun _ => none) true (some ⟨"notes.txt", [0]⟩) ⟨[]⟩ =
      { response := .renderIndex
        flashes := [("Invalid file type.", "error")]
        writes := [], inferenceCalls := [], store := ⟨[]⟩ } :=
  spec_C4 id (fun _ => none) ⟨"notes.txt", [0]⟩ ⟨[]⟩ (by decide) (by decide)

/-- Claim C5: a POST upload with a missing file field or an empty filename
flashes the no-file-selected notice and redirects back to the form, with
no storage write and no inference call. -/
theorem spec_C5 (sanitize : String → String) (classify : String → Option JVal)
    (file : Option UpFile) (st : Store)
    (h : file = none ∨ ∃ f, file = some f ∧ f.filename = "") :
    upload_file sanitize classify true file st =
      { response := .redirectSelf
        flashes := [("No image file selected.", "error")]
        writes := [], inferenceCalls := [], store := st } := by
  rcases h with h | ⟨f, hf, hname⟩
  · subst h; simp [upload_file]
  · subst hf; simp [upload_file, hname]

/-- Witness for C5: missing field and empty filename, concretely. -/
theorem spec_C5_witness :
    upload_file id (fun _ => none) true none ⟨[]⟩ =
      { response := .redirectSelf
        flashes := [("No image file selected.", "error")]
        writes := [], inferenceCalls := [], store := ⟨[]⟩ }
    ∧ upload_file id (fun _ => none) true (some ⟨"", [1]⟩) ⟨[]⟩ =
      { response := .redirectSelf
        flashes := [("No image file selected.", "error")]
        writes := [], inferenceCalls := [], store := ⟨[]⟩ } :=
  ⟨spec_C5 id (fun _ => none) none ⟨[]⟩ (Or.inl rfl),
   spec_C5 id (fun _ => none) (some ⟨"", [1]⟩) ⟨[]⟩
     (Or.inr ⟨⟨"", [1]⟩, rfl, rfl⟩)⟩

/-- Claim C6: `run_roboflow_workflow` is total and returns `none` exactly
when the client handle is uninitialized, reading the image errors, the
remote call errors, or the response parses to no label. -/
theorem spec_C6 {E1 E2 : Type} (clientInit : Bool)
    (readImage : Except E1 (List Nat))
    (callAPI : List Nat → Except E2 JVal) :
    run_roboflow_workflow clientInit readImage callAPI = none ↔
      clientInit = false
      ∨ (∃ e, readImage = .error e)
      ∨ (∃ bs e, readImage = .ok bs ∧ callAPI bs = .error e)
      ∨ (∃ bs r, readImage = .ok bs ∧ callAPI bs = .ok r
          ∧ interpretResult r = none) := by
  cases clientInit with
  | false => simp [run_roboflow_workflow]
  | true =>
      cases readImage with
      | error e => simp [run_roboflow_workflow]
      | ok bs =>
          cases hc : callAPI bs with
          | error e => simp [run_roboflow_workflow, hc]
          | ok r => simp [run_roboflow_workflow, hc]

/-- Claim C7: `GET /biskut/L` resolves exactly the template
`biscuits/L.html` (case-sensitive, no normalization); when it renders, its
content is served with status 200, and when rendering fails the generic
not-found message is returned with status 404 — the handler is total. -/
theorem spec_C7 {E : Type} (render : String → Except E String) (L : String) :
    (∀ page, render ("biscuits/" ++ L ++ ".html") = .ok page →
      show_recipe render L = (page, 200))
    ∧ (∀ e, render ("biscuits/" ++ L ++ ".html") = .error e →
      show_recipe render L =
        ("<h1>No recipe page found for \x27" ++ L ++ "\x27</h1>", 404)) := by
  constructor
  · intro page h; simp [show_recipe, h]
  · intro e h; simp [show_recipe, h]

/-- Witness for C7: a template table holding only `biscuits/oatmeal.html`
serves `oatmeal` and 404s `unknown_biscuit`. -/
theorem spec_C7_witness :
    show_recipe (fun p => if p = "biscuits/oatmeal.html"
        then Except.ok "OATMEAL PAGE" else Except.error ()) "oatmeal" =
      ("OATMEAL PAGE", 200)
    ∧ show_recipe (fun p => if p = "biscuits/oatmeal.html"
        then Except.ok "OATMEAL PAGE" else Except.error ()) "unknown_biscuit" =
      ("<h1>No recipe page found for \x27" ++ "unknown_biscuit" ++
        "\x27</h1>", 404) :=
  ⟨(spec_C7 (fun p => if p = "biscuits/oatmeal.html"
      then Except.ok "OATMEAL PAGE" else Except.error ()) "oatmeal").1
      "OATMEAL PAGE" rfl,
   (spec_C7 (fun p => if p = "biscuits/oatmeal.html"
      then Except.ok "OATMEAL PAGE" else Except.error ()) "unknown_biscuit").2
      () rfl⟩

/-- Claim C8: round-trip.  Bytes stored under name `N` are retrieved
byte-for-byte under `N`; retrieval of a never-stored name is not-found;
and an accepted upload leaves the store serving the sanitized filename
with exactly the uploaded bytes. -/
theorem spec_C8 :
    (∀ (st : Store) (N : String) (b : List Nat),
      uploaded_file (storeBytes st N b) N = some b)
    ∧ (∀ (st : Store) (M : String), (∀ c, (M, c) ∉ st.files) →
      uploaded_file st M = none)
    ∧ (∀ (sanitize : String → String) (classify : String → Option JVal)
        (f : UpFile) (st : Store),
        f.filename ≠ "" → allowed_file f.filename = true →
        uploaded_file (upload_file sanitize classify true (some f) st).store
          (sanitize f.filename) = some f.content) := by
  refine ⟨?_, ?_, ?_⟩
  · intro st N b
    simpa [uploaded_file] using store_retrieve st N b
  · intro st M h
    simpa [uploaded_file] using retrieve_not_stored st M h
  · intro sanitize classify f st hne hallow
    cases hp : optTruthy (classify (os_path_join UPLOAD_FOLDER
        (sanitize f.filename))) with
    | true => simpa [upload_file, hne, hallow, hp, uploaded_file] using
        store_retrieve st (sanitize f.filename) f.content
    | false => simpa [upload_file, hne, hallow, hp, uploaded_file] using
        store_retrieve st (sanitize f.filename) f.content

/-- Witness for C8 at concrete stores and a concrete accepted upload. -/
theorem spec_C8_witness :
    uploaded_file (storeBytes ⟨[("old.png", [9])]⟩ "a.png" [1, 2]) "a.png" =
      some [1, 2]
    ∧ uploaded_file ⟨[("other.png", [3])]⟩ "ghost.png" = none
    ∧ uploaded_file
        (upload_file id (fun _ => none) true (some ⟨"a.png", [7]⟩) ⟨[]⟩).store
        "a.png" = some [7] :=
  ⟨spec_C8.1 ⟨[("old.png", [9])]⟩ "a.png" [1, 2],
   spec_C8.2.1 ⟨[("other.png", [3])]⟩ "ghost.png"
     (by intro c hc; simp at hc),
   spec_C8.2.2 id (fun _ => none) ⟨"a.png", [7]⟩ ⟨[]⟩ (by decide) (by decide)⟩

/-- Claim C9: the extension check accepts a filename exactly when it splits
as `a ++ \x27.\x27 :: b` with `b` dot-free (i.e. `b` is the part after the
last dot) and `b` lowercased is an allowed extension; so `photo.JPG` is
accepted and a dot-free name is rejected. -/
theorem spec_C9 (f : String) :
    allowed_file f = true ↔
      ∃ a b, f.data = a ++ '.' :: b ∧ '.' ∉ b ∧
        ALLOWED_EXTENSIONS.contains (String.mk (b.map Char.toLower)) = true := by
  constructor
  · intro h
    rw [allowed_file, Bool.and_eq_true] at h
    obtain ⟨hc, hext⟩ := h
    have hm : '.' ∈ f.data := by simpa using hc
    obtain ⟨a, hsplit, hnot⟩ := afterLast_split f.data hm
    exact ⟨a, afterLast '.' f.data, hsplit, hnot, hext⟩
  · rintro ⟨a, b, hsplit, hnot, hmem⟩
    rw [allowed_file, Bool.and_eq_true]
    refine ⟨?_, ?_⟩
    · rw [hsplit]; simp
    · rw [hsplit, afterLast_of_split a b hnot]
      exact hmem

/-- Claim C10: the bare `except:` in `show_recipe` masks every rendering
error, of every error type `E`, as the generic not-found 404 response. -/
theorem spec_C10 {E : Type} (render : String → Except E String) (L : String)
    (e : E) (h : render ("biscuits/" ++ L ++ ".html") = .error e) :
    show_recipe render L =
      ("<h1>No recipe page found for \x27" ++ L ++ "\x27</h1>", 404) := by
  simp [show_recipe, h]

/-- Witness for C10: a renderer that fails with a string error (a stand-in
for an arbitrary template bug, not just a missing file) is masked as 404. -/
theorem spec_C10_witness :
    show_recipe (fun _ => Except.error "jinja syntax bug") "kapit" =
      ("<h1>No recipe page found for \x27" ++ "kapit" ++ "\x27</h1>", 404) :=
  spec_C10 (fun _ => Except.error "jinja syntax bug") "kapit"
    "jinja syntax bug" rfl

end Biskut
